import Mathlib

/-
Verification of the SSPOR reconstruction core (pysensors/reconstruction/_sspor.py).

Shallow embedding conventions:
* numpy / scipy matrices over floats are modelled as Mathlib matrices over ℚ
  (exact arithmetic; ℚ division is total with 1/0 = 0, matching formulas only
  where the code's own preconditions hold).
* `np.linalg.solve A b` is modelled by Cramer's rule, `(det A)⁻¹ • adjugate A * b`,
  which agrees with the unique solution whenever `A` is invertible (numpy raises
  on a singular matrix; theorems carry the corresponding determinant hypotheses).
* raised Python exceptions are modelled by `Except`/`Option PSError` results;
  methods that mutate `self` return the updated state together with the error, since
  a raised exception leaves the partially mutated object behind.
* warnings are not observable in results and are not modelled.
-/

namespace PySensors

/-- Python exception kinds raised by the reconstruction core. -/
inductive PSError where
  | valueError
  | typeError
  | notImplementedError
  | notFittedError
  | attributeError
  | linAlgError
  deriving DecidableEq, Repr

/-- The `prior` argument of predict/std/energy landscapes: either a Python string
or a 1-D array (modelled as a list of rationals). -/
inductive PriorArg where
  | str (s : String)
  | vec (v : List ℚ)

/-- Fitted state of an SSPOR model (attributes set by a successful `SSPOR.fit`):
`basis_matrix_` of shape (n_features, n_basis_modes), the ranked sensor list,
the normalized singular values and the active sensor count.  The field `hns`
records that the active sensor count does not exceed the number of ranked
sensors, which `fit`/`set_number_of_sensors` guarantee (see the model layer). -/
structure Fitted (nf nm : ℕ) where
  basis_matrix_ : Matrix (Fin nf) (Fin nm) ℚ
  ranked_sensors_ : List (Fin nf)
  singular_values : Fin nm → ℚ
  n_sensors : ℕ
  hns : n_sensors ≤ ranked_sensors_.length

/-- Shallow model of `np.linalg.solve` / `scipy.linalg.solve` by Cramer's rule:
returns `(det A)⁻¹ • adjugate A * B`, the unique solution of `A · X = B`
whenever `det A ≠ 0`. -/
def npSolve {n k : ℕ} (A : Matrix (Fin n) (Fin n) ℚ) (B : Matrix (Fin n) (Fin k) ℚ) :
    Matrix (Fin n) (Fin k) ℚ :=
  ((A.det)⁻¹ • A.adjugate) * B

/-- Shallow model of `np.linalg.inv` by Cramer's rule.  Over the field ℚ this
coincides with Mathlib's nonsingular inverse `A⁻¹` (see `npInv_eq_inv`). -/
def npInv {n : ℕ} (A : Matrix (Fin n) (Fin n) ℚ) : Matrix (Fin n) (Fin n) ℚ :=
  (A.det)⁻¹ • A.adjugate

/-- Shallow model of `scipy.linalg.lstsq A B` via the normal equations
`(Aᵀ A) X = Aᵀ B`; coincides with the least-squares solution when `A` has full
column rank. -/
def npLstsq {r c k : ℕ} (A : Matrix (Fin r) (Fin c) ℚ) (B : Matrix (Fin r) (Fin k) ℚ) :
    Matrix (Fin c) (Fin k) ℚ :=
  npSolve (A.transpose * A) (A.transpose * B)

/-- Mean of a vector, modelling `np.ndarray.mean` of the computed prior. -/
def npMean {nm : ℕ} (v : Fin nm → ℚ) : ℚ :=
  (∑ i, v i) / nm

namespace Fitted

variable {nf nm ns : ℕ}

/-- The selected sensor rows `self.ranked_sensors_[: self.n_sensors]`
(`SSPOR.get_selected_sensors`, lines 309-321), as index functions into the
ranked list. -/
def selIdx (s : Fitted nf nm) (i : Fin s.n_sensors) : Fin nf :=
  s.ranked_sensors_.get ⟨i.val, lt_of_lt_of_le i.isLt s.hns⟩

/-- The basis matrix restricted to the selected sensor rows,
`self.basis_matrix_[self.selected_sensors, :]` (lines 287, 656). -/
def selMatrix (s : Fitted nf nm) : Matrix (Fin s.n_sensors) (Fin nm) ℚ :=
  Matrix.of fun i j => s.basis_matrix_ (s.selIdx i) j

/-- Resolution of the `prior` argument (lines 230-245 of `SSPOR.predict`;
identical logic in `std` lines 634-649): the string `"decreasing"` resolves to
the stored singular values, a 1-D array must have length exactly
`n_basis_modes` (= `basis_matrix_.shape[1]`), anything else is a `ValueError`. -/
def resolvePrior (s : Fitted nf nm) : PriorArg → Except PSError (Fin nm → ℚ)
  | PriorArg.str t =>
    if t = "decreasing" then Except.ok s.singular_values else Except.error PSError.valueError
  | PriorArg.vec v =>
    if h : v.length = nm then
      Except.ok fun i => v.get (Fin.cast h.symm i)
    else Except.error PSError.valueError

/-- Resolution of the `noise` argument (lines 246-251): `None` defaults to the
mean of the computed prior. -/
def resolveNoise {nm : ℕ} (p : Fin nm → ℚ) : Option ℚ → ℚ
  | some v => v
  | none => npMean p

/-- The posterior precision matrix `np.diag(1/prior**2) + (S.T @ S)/noise**2`
formed by `_regularized_reconstruction` (lines 286-290) and `std`
(lines 655-659). -/
def precisionMatrix (s : Fitted nf nm) (p : Fin nm → ℚ) (σ : ℚ) :
    Matrix (Fin nm) (Fin nm) ℚ :=
  Matrix.diagonal (fun i => 1 / (p i) ^ 2) +
    (σ ^ 2)⁻¹ • (s.selMatrix.transpose * s.selMatrix)

/-- `SSPOR._regularized_reconstruction` (lines 267-295): solve
`Λ c = Sᵀ x / noise²` and return `(basis_matrix_ @ c).T`.  `xT` is the
measurement matrix after the transposition at line 214. -/
def regularizedReconstruction (s : Fitted nf nm)
    (xT : Matrix (Fin s.n_sensors) (Fin ns) ℚ) (p : Fin nm → ℚ) (σ : ℚ) :
    Matrix (Fin ns) (Fin nf) ℚ :=
  let rhs := s.selMatrix.transpose * xT
  (s.basis_matrix_ * npSolve (s.precisionMatrix p σ) ((σ ^ 2)⁻¹ • rhs)).transpose

/-- The sensor-restricted basis matrix reindexed as a square matrix, in the
`n_sensors = n_basis_modes` branch of the unregularized path. -/
def sqSel (s : Fitted nf nm) (h : s.n_sensors = nm) : Matrix (Fin nm) (Fin nm) ℚ :=
  s.selMatrix.submatrix (Fin.cast h.symm) id

/-- `SSPOR._square_predict` (lines 297-301): exact solve of the square system. -/
def squarePredict (s : Fitted nf nm) (h : s.n_sensors = nm)
    (xT : Matrix (Fin s.n_sensors) (Fin ns) ℚ) : Matrix (Fin ns) (Fin nf) ℚ :=
  (s.basis_matrix_ * npSolve (s.sqSel h) (xT.submatrix (Fin.cast h.symm) id)).transpose

/-- `SSPOR._rectangular_predict` (lines 303-307): least-squares solve. -/
def rectangularPredict (s : Fitted nf nm)
    (xT : Matrix (Fin s.n_sensors) (Fin ns) ℚ) : Matrix (Fin ns) (Fin nf) ℚ :=
  (s.basis_matrix_ * npLstsq s.selMatrix xT).transpose

/-- `SSPOR.predict` (lines 178-265) on a fitted model.  The argument `x` has
shape (n_samples, n_sensors); `validate_input(x, sensors)` (missing from the
sources, modelled from the spec: it validates that the measurement array
matches the selected sensors) is absorbed by the type, and the `.T` of
line 214 is the transpose below.  `method = none` models Python `method=None`
(the regularized path); an unknown method string raises
`NotImplementedError` (line 265). -/
def predict (s : Fitted nf nm) (x : Matrix (Fin ns) (Fin s.n_sensors) ℚ)
    (method : Option String) (prior : PriorArg) (noise : Option ℚ) :
    Except PSError (Matrix (Fin ns) (Fin nf) ℚ) :=
  match method with
  | none =>
    match s.resolvePrior prior with
    | Except.error e => Except.error e
    | Except.ok p =>
      Except.ok (s.regularizedReconstruction x.transpose p (resolveNoise p noise))
  | some mstr =>
    if mstr = "unregularized" then
      if h : s.n_sensors = nm then
        Except.ok (s.squarePredict h x.transpose)
      else
        Except.ok (s.rectangularPredict x.transpose)
    else Except.error PSError.notImplementedError

/-- `SSPOR.std` (lines 605-667) on a fitted model: resolve prior and noise
exactly as `predict` does, form the same precision matrix, set
`diag_cov_matrix = basis_matrix_ @ np.linalg.inv(composite_matrix) @ S.T / noise**2`
and return `noise * np.sqrt(np.sum(diag_cov_matrix**2, axis=1))`.  The square
root lives in ℝ; everything under it is exact rational arithmetic. -/
noncomputable def std (s : Fitted nf nm) (prior : PriorArg) (noise : Option ℚ) :
    Except PSError (Fin nf → ℝ) :=
  match s.resolvePrior prior with
  | Except.error e => Except.error e
  | Except.ok p =>
    let σ := resolveNoise p noise
    let M := (σ ^ 2)⁻¹ •
      (s.basis_matrix_ * npInv (s.precisionMatrix p σ) * s.selMatrix.transpose)
    Except.ok fun i => (σ : ℝ) * Real.sqrt (∑ j, ((M i j : ℚ) : ℝ) ^ 2)

/-- The first `k` ranked sensors, `self.ranked_sensors_[:n_sensors]` for a sweep
count `k` (Python slicing clamps at the list length). -/
def cntSel (s : Fitted nf nm) (k : ℕ) : List (Fin nf) :=
  s.ranked_sensors_.take k

/-- The basis matrix restricted to the first `k` ranked sensors
(`self.basis_matrix_[self.ranked_sensors_[:n_sensors], :]` inside the sweep). -/
def cntMatrix (s : Fitted nf nm) (k : ℕ) :
    Matrix (Fin (s.cntSel k).length) (Fin nm) ℚ :=
  Matrix.of fun i j => s.basis_matrix_ ((s.cntSel k).get i) j

/-- The default sweep range of `SSPOR.reconstruction_error` (lines 541-543):
`np.arange(1, min(self.n_sensors, basis_mode_dim) + 1)` where
`basis_mode_dim = self.basis_matrix_.shape[0]`, i.e. the number of FEATURES
(rows), not the number of basis modes (columns). -/
def defaultSensorRange (s : Fitted nf nm) : List ℕ :=
  List.range' 1 (min s.n_sensors nf)

/-- `SSPOR.reconstruction_error` (lines 511-576): for each count in the range,
use the exact square solve when the count equals `n_basis_modes`
(= `basis_matrix_.shape[1]`) and least squares otherwise, scoring each
reconstruction against the held-out data.  The default RMSE scorer (lines
549-552) involves a float square root and is here passed explicitly as `sc`;
`linAlgError` models `scipy.linalg.solve` rejecting a non-square system.  The
warning at lines 544-547 is not modelled. -/
def reconstruction_error (s : Fitted nf nm) (x_test : Matrix (Fin ns) (Fin nf) ℚ)
    (sensor_range : Option (List ℕ))
    (sc : Matrix (Fin ns) (Fin nf) ℚ → Matrix (Fin ns) (Fin nf) ℚ → ℚ) :
    List (Except PSError ℚ) :=
  let xT := x_test.transpose
  let r := sensor_range.getD s.defaultSensorRange
  r.map fun k =>
    let xk : Matrix (Fin (s.cntSel k).length) (Fin ns) ℚ :=
      Matrix.of fun i j => xT ((s.cntSel k).get i) j
    if k = nm then
      if h : (s.cntSel k).length = nm then
        Except.ok (sc ((s.basis_matrix_ *
          npSolve ((s.cntMatrix k).submatrix (Fin.cast h.symm) id)
            (xk.submatrix (Fin.cast h.symm) id)).transpose) x_test)
      else Except.error PSError.linAlgError
    else
      Except.ok (sc ((s.basis_matrix_ * npLstsq (s.cntMatrix k) xk).transpose) x_test)

end Fitted

/-- Concrete fitted state with 1 feature, 1 basis mode, 1 selected sensor. -/
def fit11 : Fitted 1 1 where
  basis_matrix_ := Matrix.of fun _ _ => 1
  ranked_sensors_ := [0]
  singular_values := fun _ => 1
  n_sensors := 1
  hns := by decide

/-- Concrete fitted state with 2 features, 1 basis mode, 2 selected sensors. -/
def fit21 : Fitted 2 1 where
  basis_matrix_ := Matrix.of fun _ _ => 1
  ranked_sensors_ := [0, 1]
  singular_values := fun _ => 1
  n_sensors := 2
  hns := by decide

/-- Concrete fitted state with 3 features, 2 basis modes, 3 selected sensors. -/
def fitC4 : Fitted 3 2 where
  basis_matrix_ := Matrix.of fun _ _ => 1
  ranked_sensors_ := [0, 1, 2]
  singular_values := fun _ => 1
  n_sensors := 3
  hns := by decide

/-- A concrete one-sample measurement at the sensors of `fit11`. -/
def x11 : Matrix (Fin 1) (Fin fit11.n_sensors) ℚ := Matrix.of fun _ _ => 1

/-- A concrete one-sample measurement at the sensors of `fit21`. -/
def x21 : Matrix (Fin 1) (Fin fit21.n_sensors) ℚ := Matrix.of fun _ _ => 1

/-- A concrete one-sample full-feature measurement for `fitC4`. -/
def xC4 : Matrix (Fin 1) (Fin 3) ℚ := Matrix.of fun _ _ => 1

/-! ## Model layer: fit orchestration, collaborators and attribute-presence state

The SSPOR estimator mutates attributes on itself; before `fit` succeeds the
attributes `ranked_sensors_`, `basis_matrix_` and `singular_values` do not
exist.  This layer models the estimator as a record of optional attributes,
with matrices in untyped row-major form, and models the external basis and
ranking-strategy collaborators by function parameters, per the collaborator
contracts of the spec.  Mutating methods return the updated state together
with an optional raised exception (a raised exception leaves the partially
mutated object behind, as in Python). -/

/-- Untyped row-major rational matrix (numpy array), rows = first index. -/
abbrev Data := List (List ℚ)

/-- Number of rows of an untyped matrix. -/
def numRows (A : Data) : ℕ := A.length

/-- Number of columns of an untyped matrix (length of the first row). -/
def numCols (A : Data) : ℕ := (A.headD []).length

/-- Column truncation: `matrix_representation(n_basis_modes = k)` keeps the
first `k` columns; `k = none` (Python `None`) returns the full matrix. -/
def truncCols (A : Data) : Option ℕ → Data
  | none => A
  | some k => A.map fun row => row.take k

/-- Dot product of two rows. -/
def dotQ (a b : List ℚ) : ℚ := (List.zipWith (fun x y => x * y) a b).sum

/-- Column `j` of an untyped matrix. -/
def colQ (A : Data) (j : ℕ) : List ℚ := A.map fun r => r.getD j 0

/-- Lines 156-158 of `SSPOR.fit`: the normalized singular values
`np.linalg.norm(x @ basis_matrix_, axis=0) / np.sqrt(x.shape[0])`. -/
noncomputable def svals (x B : Data) : List ℝ :=
  (List.range (numCols B)).map fun j =>
    Real.sqrt (((x.map fun row => (dotQ row (colQ B j)) ^ 2).sum : ℚ) : ℝ) /
      Real.sqrt (numRows x : ℝ)

/-- Ranking-strategy kinds (`QR`, `CCQR`, `TPGR`); `fit` special-cases `TPGR`
(singular values are passed along) and the energy landscapes are gated on it. -/
inductive OptKind where
  | QR
  | CCQR
  | TPGR
  deriving DecidableEq, Repr

/-- The external basis collaborator (spec contract: `fit`,
`matrix_representation`, exposed `n_basis_modes`), with an instrumentation
counter recording how often its fitting routine ran. -/
structure PSBasis where
  n_basis_modes : ℕ
  basis_matrix? : Option Data
  fitCount : ℕ

/-- Modelled from the spec: the basis collaborator contract `fit(X) -> self`
learns a matrix representation from training data (the concrete algorithm,
e.g. SVD, is external); the learned representation is produced by the
parameter `bfit`.  Each invocation bumps `fitCount`. -/
def PSBasis.fitB (b : PSBasis) (bfit : Data → Data) (x : Data) : PSBasis :=
  { b with basis_matrix? := some (bfit x), fitCount := b.fitCount + 1 }

/-- Modelled from the spec: `matrix_representation(n_basis_modes?)` returns the
learned matrix, truncated to the requested mode count; it requires the basis
to be fitted. -/
def PSBasis.matrix_representation (b : PSBasis) (k : Option ℕ) : Except PSError Data :=
  match b.basis_matrix? with
  | none => Except.error PSError.notFittedError
  | some B => Except.ok (truncCols B k)

/-- The SSPOR estimator as a record of (optional) attributes.  `basis` and
`optimizer` are set in `__init__`; the remaining attributes only exist after a
successful `fit` (scikit-learn `check_is_fitted` tests their presence). -/
structure PSModel where
  basis : PSBasis
  optimizer : OptKind
  n_sensors : Option ℕ
  n_basis_modes : Option ℕ
  ranked_sensors? : Option (List ℕ)
  basis_matrix? : Option Data
  singular_values? : Option (List ℝ)

/-- The tail of `SSPOR.fit` (lines 156-176): compute `X_proj = x @
basis_matrix_` (a `TypeError` when `x` is `None`, since the expression is
evaluated unconditionally), derive the singular values, invoke the ranking
strategy (`rank`, the `optimizer.fit(...).get_sensors()` collaborator; for
`TPGR` the singular values are passed as well, which does not change the
modelled output shape), and randomly shuffle (`shuffle`, the seeded
`rng.permutation`) the ranked sensors after position `n_basis_modes =
basis_matrix_.shape[1]`. -/
noncomputable def PSModel.fitTail (m : PSModel) (B : Data) (x : Option Data)
    (rank : Data → List ℕ) (shuffle : List ℕ → List ℕ) : PSModel × Option PSError :=
  match x with
  | none => (m, some PSError.typeError)
  | some xd =>
    let sv := svals xd B
    let ranked := rank B
    let nbm := numCols B
    let ranked' := ranked.take nbm ++ shuffle (ranked.drop nbm)
    ({ m with singular_values? := some sv, ranked_sensors? := some ranked' }, none)

/-- Lines 148-158 of `SSPOR.fit` after the basis step: store the (truncated)
matrix representation, then `_validate_n_sensors` (lines 578-595: default
`n_sensors` to the number of rows, raise `ValueError` when it exceeds it; the
CCQR warning at lines 597-603 is not observable), then continue with the tail. -/
noncomputable def PSModel.fitAfterBasis (m : PSModel) (Bfull : Data) (x : Option Data)
    (rank : Data → List ℕ) (shuffle : List ℕ → List ℕ) : PSModel × Option PSError :=
  let B := truncCols Bfull m.n_basis_modes
  let m1 := { m with basis_matrix? := some B }
  let max_sensors := numRows B
  match m1.n_sensors with
  | none => PSModel.fitTail { m1 with n_sensors := some max_sensors } B x rank shuffle
  | some k =>
    if max_sensors < k then (m1, some PSError.valueError)
    else PSModel.fitTail m1 B x rank shuffle

/-- `SSPOR.fit` (lines 102-176).  With `prefit_basis = true` the basis is only
checked to be fitted (lines 136-137); otherwise `x` is validated
(`validate_input`, missing from the sources, modelled from the spec: it
rejects a missing array) and the basis is fit to it (lines 139-146).
`bfit`, `rank`, `shuffle` are the external collaborators (basis fitting
algorithm, ranking strategy, seeded tail permutation). -/
noncomputable def PSModel.fit (m : PSModel) (bfit : Data → Data) (rank : Data → List ℕ)
    (shuffle : List ℕ → List ℕ) (x : Option Data) (prefit_basis : Bool) :
    PSModel × Option PSError :=
  match prefit_basis, x with
  | true, _ =>
    match m.basis.basis_matrix? with
    | none => (m, some PSError.notFittedError)
    | some Bfull => PSModel.fitAfterBasis m Bfull x rank shuffle
  | false, none => (m, some PSError.valueError)
  | false, some xd =>
    PSModel.fitAfterBasis { m with basis := m.basis.fitB bfit xd } (bfit xd)
      (some xd) rank shuffle

/-- `SSPOR.get_all_sensors` / `all_sensors` (lines 337-361). -/
def PSModel.get_all_sensors (m : PSModel) : Except PSError (List ℕ) :=
  match m.ranked_sensors? with
  | none => Except.error PSError.notFittedError
  | some r => Except.ok r

/-- `SSPOR.get_selected_sensors` (lines 309-321):
`self.ranked_sensors_[: self.n_sensors]` (a `None` bound, impossible after
`fit`, would slice the whole list in Python). -/
def PSModel.get_selected_sensors (m : PSModel) : Except PSError (List ℕ) :=
  match m.ranked_sensors? with
  | none => Except.error PSError.notFittedError
  | some r => Except.ok (r.take (m.n_sensors.getD r.length))

/-- A Python scalar argument: an honest integer (any of the `INT_DTYPES`) or a
value of any other type (rejected by the `isinstance` checks). -/
inductive PyScalar where
  | int (z : ℤ)
  | nonint

/-- `SSPOR.set_number_of_sensors` (lines 363-385): requires the model fitted,
rejects non-integers, non-positive values and values exceeding the number of
ranked sensors with `ValueError`, and otherwise only updates `n_sensors`. -/
def PSModel.set_number_of_sensors (m : PSModel) (k : PyScalar) : PSModel × Option PSError :=
  match m.ranked_sensors? with
  | none => (m, some PSError.notFittedError)
  | some r =>
    match k with
    | PyScalar.nonint => (m, some PSError.valueError)
    | PyScalar.int z =>
      if z ≤ 0 then (m, some PSError.valueError)
      else if (r.length : ℤ) < z then (m, some PSError.valueError)
      else ({ m with n_sensors := some z.toNat }, none)

/-- `SSPOR.update_n_basis_modes` (lines 401-448): reject non-positive or
non-integer mode counts; if the basis is already fit and the new count does
not exceed its mode count, set `self.n_basis_modes` and re-run `fit` with
`prefit_basis=True`; otherwise require data `x` whose sample count is not
exceeded, update both mode counts and re-run a full `fit`. -/
noncomputable def PSModel.update_n_basis_modes (m : PSModel) (bfit : Data → Data)
    (rank : Data → List ℕ) (shuffle : List ℕ → List ℕ) (k : PyScalar)
    (x : Option Data) : PSModel × Option PSError :=
  match k with
  | PyScalar.nonint => (m, some PSError.valueError)
  | PyScalar.int z =>
    if z ≤ 0 then (m, some PSError.valueError)
    else
      let n := z.toNat
      if m.basis.basis_matrix?.isSome = true ∧ n ≤ m.basis.n_basis_modes then
        PSModel.fit { m with n_basis_modes := some n } bfit rank shuffle x true
      else
        match x with
        | none => (m, some PSError.valueError)
        | some xd =>
          if numRows xd < n then (m, some PSError.valueError)
          else
            PSModel.fit
              { m with n_basis_modes := some n,
                       basis := { m.basis with n_basis_modes := n } }
              bfit rank shuffle x false

/-- The not-fitted guard of `SSPOR.predict` (line 213):
`check_is_fitted(self, "ranked_sensors_")`.  The post-guard reconstruction
mathematics is modelled on the `Fitted` layer above. -/
def PSModel.predictFitGuard (m : PSModel) : Option PSError :=
  match m.ranked_sensors? with
  | none => some PSError.notFittedError
  | some _ => none

/-- The not-fitted guard of `SSPOR.score` (line 483):
`check_is_fitted(self, "ranked_sensors_")`. -/
def PSModel.scoreFitGuard (m : PSModel) : Option PSError :=
  match m.ranked_sensors? with
  | none => some PSError.notFittedError
  | some _ => none

/-- The not-fitted guard of `SSPOR.std` (line 633):
`check_is_fitted(self, "basis_matrix_")`. -/
def PSModel.stdFitGuard (m : PSModel) : Option PSError :=
  match m.basis_matrix? with
  | none => some PSError.notFittedError
  | some _ => none

/-- Prior resolution at the attribute level, shared by the energy landscapes
(lines 701-716 and 765-780): on the `"decreasing"` branch the attribute
`self.singular_values` is read (an `AttributeError` before `fit`); on the
array branch `self.basis_matrix_` is read for the length check. -/
noncomputable def PSModel.resolvePriorAttr (m : PSModel) (prior : PriorArg) :
    Except PSError (List ℝ) :=
  match prior with
  | PriorArg.str t =>
    if t = "decreasing" then
      match m.singular_values? with
      | none => Except.error PSError.attributeError
      | some sv => Except.ok sv
    else Except.error PSError.valueError
  | PriorArg.vec v =>
    match m.basis_matrix? with
    | none => Except.error PSError.attributeError
    | some B =>
      if v.length = numCols B then Except.ok (v.map fun q => (q : ℝ))
      else Except.error PSError.valueError

/-- Mean of a real list (the noise default `computed_prior.mean()`). -/
noncomputable def pMean (p : List ℝ) : ℝ := p.sum / p.length

/-- Row sum of squares of the prior-weighted basis row, i.e. `‖G_i‖²` for
`G = basis_matrix_ @ np.diag(prior)`. -/
noncomputable def rowG2 (row : List ℚ) (p : List ℝ) : ℝ :=
  ((List.zipWith (fun b q => (b : ℝ) * q) row p).map fun t => t ^ 2).sum

/-- Core of `one_pt_energy_landscape` (lines 722-723):
`-np.log(1 + np.einsum(ij,ij->i of G) / noise**2)` for
`G = basis_matrix_ @ np.diag(prior)`. -/
noncomputable def onePtCore (B : Data) (p : List ℝ) (σ : ℝ) : List ℝ :=
  B.map fun row => -Real.log (1 + rowG2 row p / σ ^ 2)

/-- Inner product of two prior-weighted basis rows `⟨G_i, G_j⟩`. -/
noncomputable def dotG (r1 r2 : List ℚ) (p : List ℝ) : ℝ :=
  (List.zipWith (fun x y => x * y)
    (List.zipWith (fun b q => (b : ℝ) * q) r1 p)
    (List.zipWith (fun b q => (b : ℝ) * q) r2 p)).sum

/-- Core of `two_pt_energy_landscape` (lines 786-806): for every remaining
candidate row the halved sum over the selected set of squared interactions,
normalized; selected indices are masked to the `nan` sentinel (here `none`). -/
noncomputable def twoPtCore (B : Data) (p : List ℝ) (σ : ℝ) (sel : List ℕ) :
    List (Option ℝ) :=
  (List.range B.length).map fun i =>
    if i ∈ sel then none
    else
      some ((1 / 2) * (sel.map fun s =>
        (dotG (B.getD i []) (B.getD s []) p) ^ 2 /
          ((1 + rowG2 (B.getD i []) p / σ ^ 2) *
            (1 + rowG2 (B.getD s []) p / σ ^ 2) * σ ^ 4)).sum)

/-- `SSPOR.one_pt_energy_landscape` (lines 669-723).  A non-`TPGR` optimizer
raises `TypeError` (lines 695-700); on the `TPGR` branch the guard
`check_is_fitted(self, "optimizer")` never fails, because the attribute
`optimizer` is set in `__init__` — an unfitted model proceeds and fails with
an `AttributeError` when `self.singular_values` or `self.basis_matrix_` is
read. -/
noncomputable def PSModel.one_pt_energy_landscape (m : PSModel) (prior : PriorArg)
    (noise : Option ℚ) : Except PSError (List ℝ) :=
  if m.optimizer = OptKind.TPGR then
    match m.resolvePriorAttr prior with
    | Except.error e => Except.error e
    | Except.ok p =>
      let σ : ℝ := match noise with | some v => (v : ℝ) | none => pMean p
      match m.basis_matrix? with
      | none => Except.error PSError.attributeError
      | some B => Except.ok (onePtCore B p σ)
  else Except.error PSError.typeError

/-- `SSPOR.two_pt_energy_landscape` (lines 725-806), with the same vacuous
`check_is_fitted(self, "optimizer")` guard as the one-point landscape. -/
noncomputable def PSModel.two_pt_energy_landscape (m : PSModel) (selected : List ℕ)
    (prior : PriorArg) (noise : Option ℚ) : Except PSError (List (Option ℝ)) :=
  if m.optimizer = OptKind.TPGR then
    match m.resolvePriorAttr prior with
    | Except.error e => Except.error e
    | Except.ok p =>
      let σ : ℝ := match noise with | some v => (v : ℝ) | none => pMean p
      match m.basis_matrix? with
      | none => Except.error PSError.attributeError
      | some B => Except.ok (twoPtCore B p σ selected)
  else Except.error PSError.typeError

/-- A freshly constructed, unfitted estimator with the given optimizer and no
`n_sensors` request (`SSPOR.__init__`, lines 87-100). -/
def unfittedModel (opt : OptKind) : PSModel where
  basis := { n_basis_modes := 0, basis_matrix? := none, fitCount := 0 }
  optimizer := opt
  n_sensors := none
  n_basis_modes := none
  ranked_sensors? := none
  basis_matrix? := none
  singular_values? := none

/-- Concrete 2-sample, 2-feature training data. -/
def xTrain : Data := [[1, 2], [3, 4]]

/-- A concrete external basis-fitting algorithm obeying the collaborator
contract: it learns the fixed 2×2 identity representation
(n_features = 2 rows, 2 modes). -/
def bfit0 : Data → Data := fun _ => [[1, 0], [0, 1]]

/-- A concrete ranking strategy obeying the collaborator contract: the trivial
permutation of all row indices. -/
def rank0 : Data → List ℕ := fun B => List.range (numRows B)

/-- An estimator constructed with an oversized sensor request `n_sensors = 5`. -/
def modelC8 : PSModel :=
  { unfittedModel OptKind.QR with n_sensors := some 5 }

/-- An estimator whose basis is already fit (two modes, 2×2 identity matrix),
as left behind by a previous fit cycle. -/
def modelPrefit : PSModel :=
  { unfittedModel OptKind.QR with
      basis := { n_basis_modes := 2,
                 basis_matrix? := some [[1, 0], [0, 1]],
                 fitCount := 1 } }

/-- A fitted-looking state for exercising `set_number_of_sensors`. -/
def modelFitted3 : PSModel :=
  { unfittedModel OptKind.QR with
      n_sensors := some 3
      ranked_sensors? := some [2, 0, 1]
      basis_matrix? := some [[1, 0], [0, 1], [1, 1]] }

/-- Cramer-rule solve is a genuine solution when the determinant is nonzero. -/
theorem npSolve_mul {n k : ℕ} (A : Matrix (Fin n) (Fin n) ℚ)
    (B : Matrix (Fin n) (Fin k) ℚ) (h : A.det ≠ 0) :
    A * npSolve A B = B := by
  unfold npSolve
  rw [Matrix.smul_mul, Matrix.mul_smul, ← Matrix.mul_assoc, Matrix.mul_adjugate,
    Matrix.smul_mul, Matrix.one_mul, smul_smul, inv_mul_cancel₀ h, one_smul]

/-- Over ℚ the Cramer-rule inverse coincides with Mathlib's matrix inverse. -/
theorem npInv_eq_inv {n : ℕ} (A : Matrix (Fin n) (Fin n) ℚ) : npInv A = A⁻¹ := by
  rw [npInv, Matrix.inv_def, Ring.inverse_eq_inv]

/-- C1: on the regularized (default, `method = None`) path, `predict` resolves
the prior (`"decreasing"` ↦ the stored singular values; a user vector must
have exact length `n_basis_modes`, else a `ValueError`), defaults the noise to
the mean of the resolved prior, and returns `BasisMatrix · c` where `c` solves
`Λ c = Sᵀ x / σ²` for the posterior precision matrix
`Λ = diag(1/p²) + Sᵀ S / σ²`, `S` the basis matrix restricted to the selected
sensor rows. -/
theorem C1_regularized_predict {nf nm ns : ℕ} (s : Fitted nf nm)
    (x : Matrix (Fin ns) (Fin s.n_sensors) ℚ) (prior : PriorArg) (noise : Option ℚ)
    (p : Fin nm → ℚ) (hp : s.resolvePrior prior = Except.ok p)
    (hdet : (s.precisionMatrix p (Fitted.resolveNoise p noise)).det ≠ 0) :
    (∃ c, s.precisionMatrix p (Fitted.resolveNoise p noise) * c
        = ((Fitted.resolveNoise p noise) ^ 2)⁻¹ • (s.selMatrix.transpose * x.transpose)
      ∧ s.predict x none prior noise = Except.ok ((s.basis_matrix_ * c).transpose))
    ∧ (∀ v : List ℚ, v.length ≠ nm →
        s.predict x none (PriorArg.vec v) noise = Except.error PSError.valueError)
    ∧ s.resolvePrior (PriorArg.str "decreasing") = Except.ok s.singular_values
    ∧ Fitted.resolveNoise p none = npMean p := by
  refine ⟨⟨npSolve (s.precisionMatrix p (Fitted.resolveNoise p noise))
      (((Fitted.resolveNoise p noise) ^ 2)⁻¹ • (s.selMatrix.transpose * x.transpose)),
      npSolve_mul _ _ hdet, ?_⟩, ?_, ?_, rfl⟩
  · simp [Fitted.predict, hp, Fitted.regularizedReconstruction]
  · intro v hv
    simp [Fitted.predict, Fitted.resolvePrior, hv]
  · simp [Fitted.resolvePrior]

/-- Witness for C1 at a concrete fitted model (one feature, one mode, prior
`"decreasing"`, noise 1). -/
theorem C1_regularized_predict_witness :
    (∃ c, fit11.precisionMatrix fit11.singular_values
          (Fitted.resolveNoise fit11.singular_values (some 1)) * c
        = ((Fitted.resolveNoise fit11.singular_values (some 1)) ^ 2)⁻¹ •
            (fit11.selMatrix.transpose * x11.transpose)
      ∧ fit11.predict x11 none (PriorArg.str "decreasing") (some 1)
          = Except.ok ((fit11.basis_matrix_ * c).transpose))
    ∧ (∀ v : List ℚ, v.length ≠ 1 →
        fit11.predict x11 none (PriorArg.vec v) (some 1)
          = Except.error PSError.valueError)
    ∧ fit11.resolvePrior (PriorArg.str "decreasing") = Except.ok fit11.singular_values
    ∧ Fitted.resolveNoise fit11.singular_values none = npMean fit11.singular_values :=
  C1_regularized_predict fit11 x11 (PriorArg.str "decreasing") (some 1)
    fit11.singular_values (by simp [Fitted.resolvePrior])
    (by
      simp [Fitted.precisionMatrix, Fitted.selMatrix, Fitted.selIdx,
        Fitted.resolveNoise, fit11, Matrix.det_fin_one, Matrix.add_apply,
        Matrix.diagonal_apply_eq, Matrix.smul_apply, Matrix.mul_apply,
        Matrix.transpose_apply, Fin.sum_univ_one])

/-- C2: with `method='unregularized'`, `predict` solves the square system
exactly when `n_sensors = n_basis_modes` and falls back to least squares
otherwise, returning `BasisMatrix · c` in both cases; any other method string
raises `NotImplementedError`. -/
theorem C2_unregularized_dispatch {nf nm ns : ℕ} (s : Fitted nf nm)
    (x : Matrix (Fin ns) (Fin s.n_sensors) ℚ) (prior : PriorArg) (noise : Option ℚ) :
    (∀ (h : s.n_sensors = nm), (s.sqSel h).det ≠ 0 →
      ∃ c, s.sqSel h * c = x.transpose.submatrix (Fin.cast h.symm) id
        ∧ s.predict x (some "unregularized") prior noise
            = Except.ok ((s.basis_matrix_ * c).transpose))
    ∧ (s.n_sensors ≠ nm → (s.selMatrix.transpose * s.selMatrix).det ≠ 0 →
      ∃ c, s.selMatrix.transpose * s.selMatrix * c = s.selMatrix.transpose * x.transpose
        ∧ s.predict x (some "unregularized") prior noise
            = Except.ok ((s.basis_matrix_ * c).transpose))
    ∧ (∀ mstr : String, mstr ≠ "unregularized" →
        s.predict x (some mstr) prior noise = Except.error PSError.notImplementedError) := by
  refine ⟨fun h hdet => ?_, fun h hdet => ?_, fun mstr hm => ?_⟩
  · refine ⟨npSolve (s.sqSel h) (x.transpose.submatrix (Fin.cast h.symm) id),
      npSolve_mul _ _ hdet, ?_⟩
    simp only [Fitted.predict]
    rw [if_pos trivial, dif_pos h]
    rfl
  · refine ⟨npLstsq s.selMatrix x.transpose, npSolve_mul _ _ hdet, ?_⟩
    simp only [Fitted.predict]
    rw [if_pos trivial, dif_neg h]
    rfl
  · simp only [Fitted.predict]
    rw [if_neg hm]

/-- Witness for C2: the square branch at a 1-feature model with
`n_sensors = n_basis_modes = 1`, the rectangular branch at a 2-feature model
with `n_sensors = 2 ≠ 1 = n_basis_modes`, and a rejected method string. -/
theorem C2_unregularized_dispatch_witness :
    (∃ c, fit11.sqSel rfl * c
        = x11.transpose.submatrix (Fin.cast (Eq.symm rfl)) id
      ∧ fit11.predict x11 (some "unregularized") (PriorArg.str "decreasing") none
          = Except.ok ((fit11.basis_matrix_ * c).transpose))
    ∧ (∃ c, fit21.selMatrix.transpose * fit21.selMatrix * c
          = fit21.selMatrix.transpose * x21.transpose
      ∧ fit21.predict x21 (some "unregularized") (PriorArg.str "decreasing") none
          = Except.ok ((fit21.basis_matrix_ * c).transpose))
    ∧ fit11.predict x11 (some "banana") (PriorArg.str "decreasing") none
        = Except.error PSError.notImplementedError :=
  ⟨(C2_unregularized_dispatch fit11 x11 (PriorArg.str "decreasing") none).1 rfl
      (by
        simp [Fitted.sqSel, Fitted.selMatrix, Fitted.selIdx, fit11,
          Matrix.det_fin_one, Matrix.submatrix_apply]),
    (C2_unregularized_dispatch fit21 x21 (PriorArg.str "decreasing") none).2.1
      (by decide)
      (by
        simp [Fitted.selMatrix, Fitted.selIdx, fit21, Matrix.det_fin_one,
          Matrix.mul_apply, Matrix.transpose_apply, Fin.sum_univ_two]),
    (C2_unregularized_dispatch fit11 x11 (PriorArg.str "decreasing") none).2.2
      "banana" (by decide)⟩

/-- C3: `std` resolves the prior and noise with the same rules as `predict`,
forms the same precision matrix `Λ`, and returns per-feature
`σ · sqrt (Σ_j M_ij²)` for the propagated matrix
`M = BasisMatrix · Λ⁻¹ · Sᵀ / σ²` (with `Λ⁻¹` the matrix inverse). -/
theorem C3_std_formula {nf nm : ℕ} (s : Fitted nf nm) (prior : PriorArg)
    (noise : Option ℚ) (p : Fin nm → ℚ) (hp : s.resolvePrior prior = Except.ok p) :
    (s.std prior noise = Except.ok fun i =>
      ((Fitted.resolveNoise p noise : ℚ) : ℝ) *
        Real.sqrt (∑ j, ((((Fitted.resolveNoise p noise ^ 2)⁻¹ •
          (s.basis_matrix_ * (s.precisionMatrix p (Fitted.resolveNoise p noise))⁻¹ *
            s.selMatrix.transpose)) i j : ℚ) : ℝ) ^ 2))
    ∧ (∀ v : List ℚ, v.length ≠ nm →
        s.std (PriorArg.vec v) noise = Except.error PSError.valueError)
    ∧ Fitted.resolveNoise p none = npMean p := by
  refine ⟨?_, ?_, rfl⟩
  · simp only [Fitted.std, hp]
    rw [npInv_eq_inv]
  · intro v hv
    simp [Fitted.std, Fitted.resolvePrior, hv]

/-- Witness for C3 at a concrete fitted model. -/
theorem C3_std_formula_witness :
    (fit11.std (PriorArg.str "decreasing") (some 1) = Except.ok fun i =>
      ((Fitted.resolveNoise fit11.singular_values (some 1) : ℚ) : ℝ) *
        Real.sqrt (∑ j, ((((Fitted.resolveNoise fit11.singular_values (some 1) ^ 2)⁻¹ •
          (fit11.basis_matrix_ *
            (fit11.precisionMatrix fit11.singular_values
              (Fitted.resolveNoise fit11.singular_values (some 1)))⁻¹ *
            fit11.selMatrix.transpose)) i j : ℚ) : ℝ) ^ 2))
    ∧ (∀ v : List ℚ, v.length ≠ 1 →
        fit11.std (PriorArg.vec v) (some 1) = Except.error PSError.valueError)
    ∧ Fitted.resolveNoise fit11.singular_values none = npMean fit11.singular_values :=
  C3_std_formula fit11 (PriorArg.str "decreasing") (some 1) fit11.singular_values
    (by simp [Fitted.resolvePrior])

/-- C4 (the code evaluated at the failing input): with `sensor_range = None`,
`reconstruction_error` defaults the range to
`np.arange(1, min(n_sensors, basis_matrix_.shape[0]) + 1)`, i.e.
`[1 … min(n_sensors, n_features)]`, not `[1 … min(n_sensors, n_basis_modes)]`
as the claim (and the method's own docstring) state: on a fitted model with 3
features, 2 basis modes and 3 active sensors the computed default range is
`[1, 2, 3]` (one score per count), while the claimed default is `[1, 2]`. -/
theorem C4_default_range_uses_n_features :
    fitC4.defaultSensorRange = [1, 2, 3]
    ∧ List.range' 1 (min fitC4.n_sensors 2) = [1, 2]
    ∧ fitC4.defaultSensorRange ≠ List.range' 1 (min fitC4.n_sensors 2)
    ∧ (fitC4.reconstruction_error xC4 none fun _ _ => 0).length = 3 := by
  refine ⟨by decide, by decide, by decide, ?_⟩
  simp [Fitted.reconstruction_error, Fitted.defaultSensorRange, fitC4]

/-- C6: on a fitted model, `set_number_of_sensors` rejects non-integers,
non-positive values and values exceeding the number of ranked sensors with a
`ValueError`, leaving the state unchanged; for every valid value it updates
`n_sensors` and nothing else. -/
theorem C6_set_number_of_sensors (m : PSModel) (r : List ℕ)
    (hfit : m.ranked_sensors? = some r) :
    m.set_number_of_sensors PyScalar.nonint = (m, some PSError.valueError)
    ∧ (∀ z : ℤ, z ≤ 0 →
        m.set_number_of_sensors (PyScalar.int z) = (m, some PSError.valueError))
    ∧ (∀ z : ℤ, (r.length : ℤ) < z →
        m.set_number_of_sensors (PyScalar.int z) = (m, some PSError.valueError))
    ∧ (∀ z : ℤ, 0 < z → z ≤ (r.length : ℤ) →
        m.set_number_of_sensors (PyScalar.int z)
          = ({ m with n_sensors := some z.toNat }, none)) := by
  refine ⟨?_, ?_, ?_, ?_⟩
  · simp [PSModel.set_number_of_sensors, hfit]
  · intro z hz
    simp [PSModel.set_number_of_sensors, hfit, hz]
  · intro z hz
    have h0 : ¬ z ≤ 0 := by omega
    simp [PSModel.set_number_of_sensors, hfit, h0, hz]
  · intro z hz1 hz2
    have h0 : ¬ z ≤ 0 := by omega
    have h1 : ¬ (r.length : ℤ) < z := by omega
    simp [PSModel.set_number_of_sensors, hfit, h0, h1]

/-- Witness for C6 at a concrete fitted state with three ranked sensors. -/
theorem C6_set_number_of_sensors_witness :
    modelFitted3.set_number_of_sensors PyScalar.nonint
      = (modelFitted3, some PSError.valueError)
    ∧ modelFitted3.set_number_of_sensors (PyScalar.int (-1))
      = (modelFitted3, some PSError.valueError)
    ∧ modelFitted3.set_number_of_sensors (PyScalar.int 7)
      = (modelFitted3, some PSError.valueError)
    ∧ modelFitted3.set_number_of_sensors (PyScalar.int 2)
      = ({ modelFitted3 with n_sensors := some 2 }, none) :=
  ⟨(C6_set_number_of_sensors modelFitted3 [2, 0, 1] rfl).1,
    (C6_set_number_of_sensors modelFitted3 [2, 0, 1] rfl).2.1 (-1) (by decide),
    (C6_set_number_of_sensors modelFitted3 [2, 0, 1] rfl).2.2.1 7 (by decide),
    (C6_set_number_of_sensors modelFitted3 [2, 0, 1] rfl).2.2.2 2 (by decide) (by decide)⟩

/-- C5: after a successful `fit` (with a ranking strategy returning a
permutation of the row indices, per its collaborator contract, and the seeded
tail shuffle being a permutation), `get_all_sensors` returns a permutation of
`[0, n_features)` — correct length, no duplicates — and
`get_selected_sensors` returns exactly its `n_sensors`-long prefix; both
properties are preserved by any valid `set_number_of_sensors`. -/
theorem C5_ranked_sensors_permutation (m : PSModel) (bfit : Data → Data)
    (rank : Data → List ℕ) (shuffle : List ℕ → List ℕ) (xd : Data)
    (hrank : ∀ B, (rank B).Perm (List.range (numRows B)))
    (hshuffle : ∀ l, (shuffle l).Perm l)
    (hns : ∀ k, m.n_sensors = some k →
      k ≤ numRows (truncCols (bfit xd) m.n_basis_modes)) :
    ∃ r, (m.fit bfit rank shuffle (some xd) false).2 = none
      ∧ (m.fit bfit rank shuffle (some xd) false).1.get_all_sensors = Except.ok r
      ∧ r.Perm (List.range (numRows (truncCols (bfit xd) m.n_basis_modes)))
      ∧ r.length = numRows (truncCols (bfit xd) m.n_basis_modes)
      ∧ r.Nodup
      ∧ (m.fit bfit rank shuffle (some xd) false).1.get_selected_sensors
          = Except.ok (r.take
              ((m.fit bfit rank shuffle (some xd) false).1.n_sensors.getD r.length))
      ∧ (∀ z : ℤ, 0 < z → z ≤ (r.length : ℤ) →
          ((m.fit bfit rank shuffle (some xd) false).1.set_number_of_sensors
              (PyScalar.int z)).1.get_all_sensors = Except.ok r
          ∧ ((m.fit bfit rank shuffle (some xd) false).1.set_number_of_sensors
              (PyScalar.int z)).1.get_selected_sensors
              = Except.ok (r.take z.toNat)) := by
  set B := truncCols (bfit xd) m.n_basis_modes with hB
  set r := (rank B).take (numCols B) ++ shuffle ((rank B).drop (numCols B)) with hr
  have hperm : r.Perm (List.range (numRows B)) := by
    refine List.Perm.trans ?_ (hrank B)
    refine List.Perm.trans (List.Perm.append_left _ (hshuffle _)) ?_
    rw [List.take_append_drop]
  have hlen : r.length = numRows B := by
    rw [hperm.length_eq, List.length_range]
  have hnodup : r.Nodup := hperm.nodup_iff.mpr (List.nodup_range _)
  have hfit : (m.fit bfit rank shuffle (some xd) false)
      = ({ m with basis := m.basis.fitB bfit xd,
                  basis_matrix? := some B,
                  n_sensors := some (m.n_sensors.getD (numRows B)),
                  singular_values? := some (svals xd B),
                  ranked_sensors? := some r }, none) := by
    cases hm : m.n_sensors with
    | none =>
      simp [PSModel.fit, PSModel.fitAfterBasis, PSModel.fitTail, hm, ← hB, ← hr]
    | some k =>
      have hk := hns k hm
      have hk' : ¬ numRows B < k := by omega
      simp [PSModel.fit, PSModel.fitAfterBasis, PSModel.fitTail, hm, ← hB, ← hr, hk']
  refine ⟨r, ?_, ?_, hperm, hlen, hnodup, ?_, ?_⟩
  · rw [hfit]
  · rw [hfit]
    rfl
  · rw [hfit]
    rfl
  · intro z hz1 hz2
    have h0 : ¬ z ≤ 0 := by omega
    have h1 : ¬ (r.length : ℤ) < z := by omega
    rw [hfit]
    constructor
    · simp [PSModel.set_number_of_sensors, PSModel.get_all_sensors, h0, h1]
    · simp [PSModel.set_number_of_sensors, PSModel.get_selected_sensors, h0, h1]

/-- Witness for C5: the identity-like collaborators on concrete 2×2 training
data. -/
theorem C5_ranked_sensors_permutation_witness :
    ∃ r, ((unfittedModel OptKind.QR).fit bfit0 rank0 id (some xTrain) false).2 = none
      ∧ ((unfittedModel OptKind.QR).fit bfit0 rank0 id
          (some xTrain) false).1.get_all_sensors = Except.ok r
      ∧ r.Perm (List.range (numRows (truncCols (bfit0 xTrain)
          (unfittedModel OptKind.QR).n_basis_modes)))
      ∧ r.length = numRows (truncCols (bfit0 xTrain)
          (unfittedModel OptKind.QR).n_basis_modes)
      ∧ r.Nodup
      ∧ ((unfittedModel OptKind.QR).fit bfit0 rank0 id
          (some xTrain) false).1.get_selected_sensors
          = Except.ok (r.take (((unfittedModel OptKind.QR).fit bfit0 rank0 id
              (some xTrain) false).1.n_sensors.getD r.length))
      ∧ (∀ z : ℤ, 0 < z → z ≤ (r.length : ℤ) →
          (((unfittedModel OptKind.QR).fit bfit0 rank0 id (some xTrain)
              false).1.set_number_of_sensors (PyScalar.int z)).1.get_all_sensors
              = Except.ok r
          ∧ (((unfittedModel OptKind.QR).fit bfit0 rank0 id (some xTrain)
              false).1.set_number_of_sensors (PyScalar.int z)).1.get_selected_sensors
              = Except.ok (r.take z.toNat)) :=
  C5_ranked_sensors_permutation (unfittedModel OptKind.QR) bfit0 rank0 id xTrain
    (fun _ => List.Perm.refl _) (fun l => List.Perm.refl l)
    (fun _ h => nomatch h)

/-- C7: when the basis is already fit and the new mode count does not exceed
the basis's current mode count, `update_n_basis_modes` re-runs only the
ranking step via `fit(x, prefit_basis=True)`: the call succeeds, the external
basis fitting routine is not re-invoked and the basis's fitted representation
(the whole basis collaborator state) is left unchanged, while the ranking is
recomputed from the truncated matrix. -/
theorem C7_update_no_basis_refit (m : PSModel) (bfit : Data → Data)
    (rank : Data → List ℕ) (shuffle : List ℕ → List ℕ) (z : ℤ) (xd : Data)
    (B : Data) (hB : m.basis.basis_matrix? = some B) (hz : 0 < z)
    (hle : z.toNat ≤ m.basis.n_basis_modes)
    (hns : ∀ k, m.n_sensors = some k →
      k ≤ numRows (truncCols B (some z.toNat))) :
    (m.update_n_basis_modes bfit rank shuffle (PyScalar.int z) (some xd)).1.basis
        = m.basis
    ∧ (m.update_n_basis_modes bfit rank shuffle (PyScalar.int z) (some xd)).2 = none
    ∧ (m.update_n_basis_modes bfit rank shuffle
          (PyScalar.int z) (some xd)).1.ranked_sensors?
        = some ((rank (truncCols B (some z.toNat))).take
              (numCols (truncCols B (some z.toNat)))
            ++ shuffle ((rank (truncCols B (some z.toNat))).drop
              (numCols (truncCols B (some z.toNat))))) := by
  have h0 : ¬ z ≤ 0 := by omega
  have hcond : m.basis.basis_matrix?.isSome = true ∧ z.toNat ≤ m.basis.n_basis_modes :=
    ⟨by rw [hB]; rfl, hle⟩
  have hupd : m.update_n_basis_modes bfit rank shuffle (PyScalar.int z) (some xd)
      = PSModel.fit { m with n_basis_modes := some z.toNat } bfit rank shuffle
          (some xd) true := by
    simp [PSModel.update_n_basis_modes, h0, hcond]
  rw [hupd]
  cases hm : m.n_sensors with
  | none =>
    simp [PSModel.fit, PSModel.fitAfterBasis, PSModel.fitTail, hB, hm]
  | some k =>
    have hk := hns k hm
    have hk' : ¬ numRows (truncCols B (some z.toNat)) < k := by omega
    simp [PSModel.fit, PSModel.fitAfterBasis, PSModel.fitTail, hB, hm, hk']

/-- Witness for C7: a prefit two-mode identity basis, truncation to one mode. -/
theorem C7_update_no_basis_refit_witness :
    (modelPrefit.update_n_basis_modes bfit0 rank0 id
        (PyScalar.int 1) (some xTrain)).1.basis = modelPrefit.basis
    ∧ (modelPrefit.update_n_basis_modes bfit0 rank0 id
        (PyScalar.int 1) (some xTrain)).2 = none
    ∧ (modelPrefit.update_n_basis_modes bfit0 rank0 id
          (PyScalar.int 1) (some xTrain)).1.ranked_sensors?
        = some ((rank0 (truncCols [[1, 0], [0, 1]] (some 1))).take
              (numCols (truncCols [[1, 0], [0, 1]] (some 1)))
            ++ id ((rank0 (truncCols [[1, 0], [0, 1]] (some 1))).drop
              (numCols (truncCols [[1, 0], [0, 1]] (some 1))))) :=
  C7_update_no_basis_refit modelPrefit bfit0 rank0 id 1 xTrain [[1, 0], [0, 1]]
    rfl (by decide) (by decide) (fun _ h => nomatch h)

/-- C8 counterexample: the claim says an invalid (oversized) `n_sensors` makes
`fit` raise a value error before the expensive basis fitting step runs — but
at a concrete call with `n_sensors = 5` on 2-feature data the `ValueError` is
raised with the basis fitting routine already invoked once
(`fit` runs `self.basis.fit(x)` at lines 139-146 before `_validate_n_sensors`
at line 155). -/
theorem C8_cex_basis_fit_runs_first :
    (modelC8.fit bfit0 rank0 id (some xTrain) false).2 = some PSError.valueError
    ∧ (modelC8.fit bfit0 rank0 id (some xTrain) false).1.basis.fitCount ≠ 0 := by
  constructor
  · simp [modelC8, unfittedModel, PSModel.fit, PSModel.fitAfterBasis,
      PSBasis.fitB, bfit0, xTrain, truncCols, numRows]
  · simp [modelC8, unfittedModel, PSModel.fit, PSModel.fitAfterBasis,
      PSBasis.fitB, bfit0, xTrain, truncCols, numRows]

/-- C8 (amended): `fit` with `n_sensors` exceeding the basis row dimension
(n_features) raises a `ValueError`, but only after the basis fitting step has
run — the returned state shows one additional invocation of the basis fitting
routine. -/
theorem C8_amended_validate_after_basis_fit (m : PSModel) (bfit : Data → Data)
    (rank : Data → List ℕ) (shuffle : List ℕ → List ℕ) (xd : Data) (k : ℕ)
    (hk : m.n_sensors = some k)
    (hbig : numRows (truncCols (bfit xd) m.n_basis_modes) < k) :
    (m.fit bfit rank shuffle (some xd) false).2 = some PSError.valueError
    ∧ (m.fit bfit rank shuffle (some xd) false).1.basis.fitCount
        = m.basis.fitCount + 1 := by
  constructor
  · simp [PSModel.fit, PSModel.fitAfterBasis, PSBasis.fitB, hk, hbig]
  · simp [PSModel.fit, PSModel.fitAfterBasis, PSBasis.fitB, hk, hbig]

/-- Witness for the amended C8 at the concrete oversized request. -/
theorem C8_amended_validate_after_basis_fit_witness :
    (modelC8.fit bfit0 rank0 id (some xTrain) false).2 = some PSError.valueError
    ∧ (modelC8.fit bfit0 rank0 id (some xTrain) false).1.basis.fitCount
        = modelC8.basis.fitCount + 1 :=
  C8_amended_validate_after_basis_fit modelC8 bfit0 rank0 id xTrain 5
    rfl (by decide)

/-- C9: on an unfitted model, `predict`, `score` and `std` fail at their
not-fitted guards, and with a non-`TPGR` optimizer both energy landscapes fail
with a `TypeError` — but on an unfitted model with a `TPGR` optimizer the
energy landscape does NOT fail with a not-fitted signal: the guard
`check_is_fitted(self, "optimizer")` is vacuous (the attribute `optimizer` is
always set in `__init__`), and the call instead dies with an `AttributeError`
when it reads `self.singular_values`. -/
theorem C9_unfitted_guards (m : PSModel)
    (hr : m.ranked_sensors? = none) (hb : m.basis_matrix? = none)
    (hs : m.singular_values? = none) :
    m.predictFitGuard = some PSError.notFittedError
    ∧ m.scoreFitGuard = some PSError.notFittedError
    ∧ m.stdFitGuard = some PSError.notFittedError
    ∧ (m.optimizer ≠ OptKind.TPGR → ∀ prior noise sel,
        m.one_pt_energy_landscape prior noise = Except.error PSError.typeError
        ∧ m.two_pt_energy_landscape sel prior noise = Except.error PSError.typeError)
    ∧ (m.optimizer = OptKind.TPGR →
        m.one_pt_energy_landscape (PriorArg.str "decreasing") none
          = Except.error PSError.attributeError
        ∧ m.one_pt_energy_landscape (PriorArg.str "decreasing") none
          ≠ Except.error PSError.notFittedError
        ∧ m.two_pt_energy_landscape [] (PriorArg.str "decreasing") none
          = Except.error PSError.attributeError) := by
  refine ⟨?_, ?_, ?_, ?_, ?_⟩
  · simp [PSModel.predictFitGuard, hr]
  · simp [PSModel.scoreFitGuard, hr]
  · simp [PSModel.stdFitGuard, hb]
  · intro hopt prior noise sel
    constructor
    · simp [PSModel.one_pt_energy_landscape, hopt]
    · simp [PSModel.two_pt_energy_landscape, hopt]
  · intro hopt
    refine ⟨?_, ?_, ?_⟩
    · simp [PSModel.one_pt_energy_landscape, PSModel.resolvePriorAttr, hopt, hs]
    · simp [PSModel.one_pt_energy_landscape, PSModel.resolvePriorAttr, hopt, hs]
    · simp [PSModel.two_pt_energy_landscape, PSModel.resolvePriorAttr, hopt, hs]

/-- Witness for C9 at freshly constructed models with `QR` and with `TPGR`. -/
theorem C9_unfitted_guards_witness :
    ((unfittedModel OptKind.QR).predictFitGuard = some PSError.notFittedError
      ∧ (unfittedModel OptKind.QR).scoreFitGuard = some PSError.notFittedError
      ∧ (unfittedModel OptKind.QR).stdFitGuard = some PSError.notFittedError
      ∧ ((unfittedModel OptKind.QR).optimizer ≠ OptKind.TPGR →
          ∀ prior noise sel,
          (unfittedModel OptKind.QR).one_pt_energy_landscape prior noise
            = Except.error PSError.typeError
          ∧ (unfittedModel OptKind.QR).two_pt_energy_landscape sel prior noise
            = Except.error PSError.typeError)
      ∧ ((unfittedModel OptKind.QR).optimizer = OptKind.TPGR →
          (unfittedModel OptKind.QR).one_pt_energy_landscape
              (PriorArg.str "decreasing") none = Except.error PSError.attributeError
          ∧ (unfittedModel OptKind.QR).one_pt_energy_landscape
              (PriorArg.str "decreasing") none ≠ Except.error PSError.notFittedError
          ∧ (unfittedModel OptKind.QR).two_pt_energy_landscape []
              (PriorArg.str "decreasing") none = Except.error PSError.attributeError))
    ∧ ((unfittedModel OptKind.TPGR).one_pt_energy_landscape
          (PriorArg.str "decreasing") none = Except.error PSError.attributeError
      ∧ (unfittedModel OptKind.TPGR).one_pt_energy_landscape
          (PriorArg.str "decreasing") none ≠ Except.error PSError.notFittedError
      ∧ (unfittedModel OptKind.TPGR).two_pt_energy_landscape []
          (PriorArg.str "decreasing") none = Except.error PSError.attributeError) :=
  ⟨C9_unfitted_guards (unfittedModel OptKind.QR) rfl rfl rfl,
    (C9_unfitted_guards (unfittedModel OptKind.TPGR) rfl rfl rfl).2.2.2.2 rfl⟩

/-- C10: even on the truncating path (basis already fit, new mode count within
its mode count) `update_n_basis_modes` cannot succeed without data:
`fit(x=None, prefit_basis=True)` reaches `X_proj = x @ self.basis_matrix_`,
which raises a `TypeError` on `None`; on the mode-increasing path a missing
`x` is rejected with an explicit `ValueError`.  Training data is therefore
required on every path. -/
theorem C10_update_needs_x (m : PSModel) (bfit : Data → Data)
    (rank : Data → List ℕ) (shuffle : List ℕ → List ℕ) (z : ℤ) (B : Data)
    (hB : m.basis.basis_matrix? = some B) (hz : 0 < z)
    (hle : z.toNat ≤ m.basis.n_basis_modes)
    (hns : ∀ k, m.n_sensors = some k →
      k ≤ numRows (truncCols B (some z.toNat))) :
    (m.update_n_basis_modes bfit rank shuffle (PyScalar.int z) none).2
      = some PSError.typeError
    ∧ (∀ m' : PSModel, ¬ (m'.basis.basis_matrix?.isSome = true
          ∧ z.toNat ≤ m'.basis.n_basis_modes) →
        (m'.update_n_basis_modes bfit rank shuffle (PyScalar.int z) none).2
          = some PSError.valueError) := by
  have h0 : ¬ z ≤ 0 := by omega
  constructor
  · have hcond : m.basis.basis_matrix?.isSome = true
        ∧ z.toNat ≤ m.basis.n_basis_modes := ⟨by rw [hB]; rfl, hle⟩
    have hupd : m.update_n_basis_modes bfit rank shuffle (PyScalar.int z) none
        = PSModel.fit { m with n_basis_modes := some z.toNat } bfit rank shuffle
            none true := by
      simp [PSModel.update_n_basis_modes, h0, hcond]
    rw [hupd]
    cases hm : m.n_sensors with
    | none =>
      simp [PSModel.fit, PSModel.fitAfterBasis, PSModel.fitTail, hB, hm]
    | some k =>
      have hk := hns k hm
      have hk' : ¬ numRows (truncCols B (some z.toNat)) < k := by omega
      simp [PSModel.fit, PSModel.fitAfterBasis, PSModel.fitTail, hB, hm, hk']
  · intro m' hcond
    have hcond2 : ¬ (m'.basis.basis_matrix?.isSome = true
        ∧ z ≤ (m'.basis.n_basis_modes : ℤ)) := fun hc => hcond ⟨hc.1, by omega⟩
    simp [PSModel.update_n_basis_modes, h0, hcond2]

/-- Witness for C10 at the prefit two-mode basis with `x = None`. -/
theorem C10_update_needs_x_witness :
    (modelPrefit.update_n_basis_modes bfit0 rank0 id (PyScalar.int 1) none).2
      = some PSError.typeError
    ∧ (∀ m' : PSModel, ¬ (m'.basis.basis_matrix?.isSome = true
          ∧ (1 : ℤ).toNat ≤ m'.basis.n_basis_modes) →
        (m'.update_n_basis_modes bfit0 rank0 id (PyScalar.int 1) none).2
          = some PSError.valueError) :=
  C10_update_needs_x modelPrefit bfit0 rank0 id 1 [[1, 0], [0, 1]]
    rfl (by decide) (by decide) (fun _ h => nomatch h)

end PySensors
